import Mathlib

/-!
Shallow embedding of the WorkAdventure pusher `IoSocketController`
(file `pusher/src/controllers/IoSocketController.ts`): the admin
control-plane socket message handler, the `/room` websocket upgrade
handler, the `/room` open handler and the `/room` close handler.

External collaborators (JWT verification, the admin member-data lookup,
`JID.create`, `Jwt.sign`, `uuid`, `Color.getColorByString`) are modelled
as oracle data/functions supplied in an environment record; the control
flow of the controller itself is translated line by line from the source.
-/

/-- JavaScript truthiness of an optional string: `undefined`/`null` and
the empty string are falsy. -/
def optTruthy : Option String → Bool
  | none => false
  | some s => !s.isEmpty

/-- JavaScript falsiness test used for `!userData.jabberId`
(`null`, `undefined` and `""` are falsy). -/
def strFalsy : Option String → Bool
  | none => true
  | some s => s.isEmpty

/-- Models `err?.response?.status || 500`: an absent status (and the
falsy status `0`) becomes `500`. -/
def jsOrStatus : Option Nat → Nat
  | none => 500
  | some s => if s = 0 then 500 else s

/-- Models `userData.activatedInviteUser || undefined`: `false` (falsy)
becomes `undefined`. -/
def jsBoolOrUndef : Option Bool → Option Bool
  | some true => some true
  | _ => none

/-! ## Admin control-plane socket (`adminRoomSocket`, message handler) -/

/-- Outcome of processing a verified `listen` admin message
(source lines 179–207): whether an error notification was sent back,
the close code the connection was ended with (if any), and the list of
rooms for which `socketManager.handleAdminRoom` was invoked, in order. -/
structure AdminListenResult where
  sentErrorMessage : Bool
  closeCode : Option Nat
  closeMessage : String
  handledRooms : List String
  deriving DecidableEq, Repr

/-- The `listen` branch of the admin socket message handler, after the
token has been verified and yielded `authorizedRoomIds`:
`notAuthorizedRoom = roomIds.filter (not in authorizedRoomIds)`; if it
is nonempty an error is sent and the socket is ended with code 1008
("Access refused") before any room is handled; otherwise
`handleAdminRoom` is invoked for every requested room. -/
def adminListenHandler (authorizedRoomIds roomIds : List String) : AdminListenResult :=
  let notAuthorizedRoom := roomIds.filter (fun roomId => !(authorizedRoomIds.contains roomId))
  if notAuthorizedRoom.length > 0 then
    { sentErrorMessage := true
      closeCode := some 1008
      closeMessage := "Access refused"
      handledRooms := [] }
  else
    { sentErrorMessage := false
      closeCode := none
      closeMessage := ""
      handledRooms := roomIds }

/-! ## The room close handler -/

/-- Environment of one execution of the `/room` `close` handler: whether
`socketManager.leaveRoom` / `socketManager.leaveSpaces` throw, and
whether the liveness timer ids are set on the client. -/
structure CloseEnv where
  leaveRoomThrows : Bool
  leaveSpacesThrows : Bool
  hasPingInterval : Bool
  hasPongTimeout : Bool
  deriving DecidableEq, Repr

/-- Observable effects of one execution of the `/room` `close` handler. -/
structure CloseResult where
  disconnectingSet : Bool
  leaveRoomCalled : Bool
  leaveSpacesCalled : Bool
  errorReported : Bool
  pingIntervalCleared : Bool
  pongTimeoutCleared : Bool
  threwOut : Bool
  deriving DecidableEq, Repr

/-- The `/room` `close` handler (source lines 892–909):
`client.disconnecting = true`, then a single `try` block runs
`leaveRoom` and then `leaveSpaces`; a throw from either is caught (and
reported to Sentry), and the `finally` block clears `pingIntervalId`
and `pongTimeoutId` when they are set. A throw from `leaveRoom` leaves
the `try` block, so `leaveSpaces` is not called in that case. -/
def closeHandler (env : CloseEnv) : CloseResult :=
  if env.leaveRoomThrows then
    { disconnectingSet := true
      leaveRoomCalled := true
      leaveSpacesCalled := false
      errorReported := true
      pingIntervalCleared := env.hasPingInterval
      pongTimeoutCleared := env.hasPongTimeout
      threwOut := false }
  else if env.leaveSpacesThrows then
    { disconnectingSet := true
      leaveRoomCalled := true
      leaveSpacesCalled := true
      errorReported := true
      pingIntervalCleared := env.hasPingInterval
      pongTimeoutCleared := env.hasPongTimeout
      threwOut := false }
  else
    { disconnectingSet := true
      leaveRoomCalled := true
      leaveSpacesCalled := true
      errorReported := false
      pingIntervalCleared := env.hasPingInterval
      pongTimeoutCleared := env.hasPongTimeout
      threwOut := false }

/-! ## The room upgrade handler: data model -/

/-- The `reason` field of `UpgradeFailedInvalidData`
(`"tokenInvalid" | "invalidVersion" | null`, with `null` modelled as
`Option.none` at use sites). -/
inductive InvalidReason where
  | tokenInvalid
  | invalidVersion
  deriving DecidableEq, Repr

/-- The constant `tokenInvalidException` from `JWTTokenManager`, as constrained by
the `UpgradeFailedInvalidData.reason` union type and the
`satisfies UpgradeFailedData` checks in the source. -/
def tokenInvalidException : InvalidReason := .tokenInvalid

/-- The entity type of an `invalidTexture` rejection. -/
inductive EntityType where
  | character
  | companion
  deriving DecidableEq, Repr

/-- Model of the `ErrorApiData` payload fields used by the controller. -/
structure ErrorApiData where
  type : String
  title : String
  subtitle : String
  image : String
  code : String
  details : String
  canRetryManual : Bool
  buttonTitle : String
  timeToRetry : Int
  deriving DecidableEq, Repr

/-- The hard-coded version-mismatch payload sent with status 419
(source lines 332–343). -/
def newVersionError : ErrorApiData :=
  { type := "retry"
    title := "Please refresh"
    subtitle := "New version available"
    image := "/resources/icons/new_version.png"
    code := "NEW_VERSION"
    details := "A new version of Qtune is available. Please refresh your window"
    canRetryManual := true
    buttonTitle := "Refresh"
    timeToRetry := 999999 }

/-- The `UpgradeFailedData` union: the three rejection record shapes. -/
inductive UpgradeFailedData where
  | invalidData (reason : Option InvalidReason) (message : String) (status : Nat) (roomId : String)
  | errorData (status : Nat) (error : ErrorApiData)
  | invalidTexture (entityType : EntityType)
  deriving DecidableEq, Repr

/-- A character texture record (`WokaDetail`: id and resolved url). -/
structure WokaDetail where
  id : String
  url : String
  deriving DecidableEq, Repr

/-- A companion texture record (`CompanionDetail`). -/
structure CompanionDetail where
  id : String
  url : String
  deriving DecidableEq, Repr

/-- The data of a successfully verified JWT token
(`tokenData.identifier`, `tokenData.accessToken`). -/
structure TokenData where
  identifier : String
  accessToken : Option String
  deriving DecidableEq, Repr

/-- A value thrown inside the upgrade handler, as discriminated by the
outer catch (source lines 590–631): a `JsonWebTokenError`, some other
`Error` (with its message), or a non-`Error` value. -/
inductive Thrown where
  | jwtError (message : String)
  | genericError (message : String)
  | nonError
  deriving DecidableEq, Repr

/-- Outcome of `jwtTokenManager.verifyJWTToken(token)` for the request's
token, supplied by the environment. -/
inductive TokenVerifyOutcome where
  | valid (d : TokenData)
  | thrown (t : Thrown)
  deriving DecidableEq, Repr

/-- The fields of `FetchMemberDataByUuidResponse` consumed by the
controller. -/
structure MemberData where
  email : String
  userUuid : String
  tags : List String
  visitCardUrl : Option String
  characterTextures : List WokaDetail
  companionTexture : Option CompanionDetail
  messages : List String
  anonymous : Bool
  userRoomToken : Option String
  jabberId : Option String
  jabberPassword : Option String
  mucRooms : Option (List String)
  activatedInviteUser : Option Bool
  canEdit : Option Bool
  applications : Option (List String)
  deriving DecidableEq, Repr

/-- Outcome of `await adminService.fetchMemberDataByUuid(...)`, supplied
by the environment: a normal return, an Axios error whose response body
parses as `ErrorApiData` (with the response's HTTP status when present),
an Axios error with an unparsable body (carrying
`err?.response?.data` as a message), or a non-Axios throw. -/
inductive FetchOutcome where
  | success (d : MemberData)
  | axiosParsable (status : Option Nat) (error : ErrorApiData)
  | axiosUnparsable (body : String)
  | otherThrow
  deriving DecidableEq, Repr

/-- The validated query string of a `/room` upgrade request, plus the
`x-forwarded-for` header. `characterTextureIds` is
`z.union([z.string(), z.string().array()])`. -/
inductive StrOrList where
  | str (s : String)
  | list (l : List String)
  deriving DecidableEq, Repr

structure Query where
  roomId : String
  token : Option String
  name : String
  characterTextureIds : StrOrList
  x : Int
  y : Int
  top : Int
  bottom : Int
  left : Int
  right : Int
  companionTextureId : Option String
  availabilityStatus : Int
  lastCommandId : Option String
  version : String
  ipAddress : String
  deriving DecidableEq, Repr

/-- Environment of one upgrade: configuration constants, the abort flag
as sampled before the awaited member-data lookup (`abortedPre`) and
after it (`abortedPost`), and the outcomes of the external
collaborators. `jidCreate` models `JID.create` applied to
(local, domain, resource); `jwtSign` models
`Jwt.sign(\x7bjid\x7d, secret, \x7bexpiresIn: "1d", algorithm: "HS256"\x7d)`
applied to (jid, secret); `uuidJidResource` and `uuidSuffix` are the
values of the two `uuid()` calls; `getColorByString` models
`Color.getColorByString`. -/
structure Env where
  apiVersionHash : String
  disableAnonymous : Bool
  ejabberdJwtSecret : Option String
  ejabberdDomain : String
  uuidJidResource : String
  uuidSuffix : String
  jidCreate : String → String → String → String
  jwtSign : String → String → String
  getColorByString : String → String
  tokenVerify : TokenVerifyOutcome
  fetchOutcome : FetchOutcome
  abortedPre : Bool
  abortedPost : Bool

/-- The session seed (`UpgradeData`, `responseData` in the source)
committed by the accepting `res.upgrade` call. -/
structure PositionM where
  x : Int
  y : Int
  direction : String
  moving : Bool
  deriving DecidableEq, Repr

structure ViewportM where
  top : Int
  right : Int
  bottom : Int
  left : Int
  deriving DecidableEq, Repr

structure WokaTexture where
  url : String
  id : String
  deriving DecidableEq, Repr

structure SpaceUserM where
  id : Nat
  uuid : String
  name : String
  playUri : String
  roomName : String
  availabilityStatus : Int
  isLogged : Bool
  color : String
  tags : List String
  cameraState : Bool
  screenSharing : Bool
  microphoneState : Bool
  megaphoneState : Bool
  characterTextures : List WokaTexture
  visitCardUrl : Option String
  deriving DecidableEq, Repr

structure UpgradeData where
  token : String
  userUuid : String
  userJid : String
  ipAddress : String
  userIdentifier : String
  roomId : String
  name : String
  companionTexture : Option CompanionDetail
  availabilityStatus : Int
  lastCommandId : Option String
  characterTextures : List WokaDetail
  tags : List String
  visitCardUrl : Option String
  userRoomToken : Option String
  jabberId : String
  jabberPassword : Option String
  mucRooms : Option (List String)
  activatedInviteUser : Option Bool
  canEdit : Bool
  applications : Option (List String)
  position : PositionM
  viewport : ViewportM
  isLogged : Bool
  messages : List String
  spaceUser : SpaceUserM
  deriving DecidableEq, Repr

/-- The value passed to `res.upgrade`: either the full session seed or a
rejection record. -/
inductive UpgradeResponse where
  | accepted (d : UpgradeData)
  | rejected (d : UpgradeFailedData)
  deriving DecidableEq, Repr

/-- Result of one run of the upgrade handler: either `res.upgrade` was
called with some payload, or the handler returned without calling it. -/
inductive UpgradeResult where
  | upgraded (r : UpgradeResponse)
  | noUpgrade
  deriving DecidableEq, Repr

/-! ## The room upgrade handler: control flow -/

/-- Normalization of `characterTextureIds` (source lines 352–355): a
plain string becomes a one-element array. -/
def normalizeTextureIds : StrOrList → List String
  | .str s => [s]
  | .list l => l

/-- Models `const tokenData = token ? jwtTokenManager.verifyJWTToken(token) : null`
(source line 357): an absent or empty token yields `null` without
verification; otherwise the verifier's outcome is returned or thrown. -/
def tokenStep (env : Env) (q : Query) : Except Thrown (Option TokenData) :=
  if optTruthy q.token then
    match env.tokenVerify with
    | .valid d => .ok (some d)
    | .thrown t => .error t
  else
    .ok none

/-- The outer catch of the upgrade handler (source lines 590–631),
parameterized by the value of `upgradeAborted.aborted` at the moment
the catch runs: a `JsonWebTokenError` yields reason `tokenInvalid`
and status 401; another `Error` yields reason `null`, its message and
status 401; a non-`Error` value yields reason `null`, message
"500 Internal Server Error" and status 500. In every branch the
aborted flag is checked first and suppresses the upgrade. -/
def catchHandler (q : Query) (t : Thrown) (abortedNow : Bool) : UpgradeResult :=
  match t with
  | .jwtError msg =>
    if abortedNow then .noUpgrade
    else .upgraded (.rejected (.invalidData (some tokenInvalidException) msg 401 q.roomId))
  | .genericError msg =>
    if abortedNow then .noUpgrade
    else .upgraded (.rejected (.invalidData none msg 401 q.roomId))
  | .nonError =>
    if abortedNow then .noUpgrade
    else .upgraded (.rejected (.invalidData none "500 Internal Server Error" 500 q.roomId))

/-- Assembly of `responseData` (source lines 521–579) from the query,
the member data and the values computed by the handler. -/
def mkSeed (env : Env) (q : Query) (d : MemberData) (userIdentifier : String)
    (isLogged : Bool) (jabberId : String) (jabberPassword : Option String) : UpgradeData :=
  { token := q.token.getD ""
    userUuid := d.userUuid
    userJid := jabberId
    ipAddress := q.ipAddress
    userIdentifier := userIdentifier
    roomId := q.roomId
    name := q.name
    companionTexture := d.companionTexture
    availabilityStatus := q.availabilityStatus
    lastCommandId := q.lastCommandId
    characterTextures := d.characterTextures
    tags := d.tags
    visitCardUrl := d.visitCardUrl
    userRoomToken := d.userRoomToken
    jabberId := jabberId
    jabberPassword := jabberPassword
    mucRooms := d.mucRooms
    activatedInviteUser := jsBoolOrUndef d.activatedInviteUser
    canEdit := d.canEdit.getD false
    applications := d.applications
    position := { x := q.x, y := q.y, direction := "down", moving := false }
    viewport := { top := q.top, right := q.right, bottom := q.bottom, left := q.left }
    isLogged := isLogged
    messages := []
    spaceUser :=
      { id := 0
        uuid := d.userUuid
        name := q.name
        playUri := q.roomId
        roomName := ""
        availabilityStatus := q.availabilityStatus
        isLogged := isLogged
        color := env.getColorByString q.name
        tags := d.tags
        cameraState := false
        screenSharing := false
        microphoneState := false
        megaphoneState := false
        characterTextures := d.characterTextures.map (fun t => { url := t.url, id := t.id })
        visitCardUrl := d.visitCardUrl } }

/-- The part of the upgrade handler from the awaited
`adminService.fetchMemberDataByUuid` call onwards (source lines
389–589): error mapping of the lookup, jabber credential fabrication
(source lines 468–485), the abort check before the commit (source
lines 487–491), texture validation (source lines 493–519) and the
accepting `res.upgrade` call. Every check point in this stage reads
the abort flag as `abortedPost`. -/
def fetchStage (env : Env) (q : Query) (characterTextureIds : List String)
    (userIdentifier : String) (isLogged : Bool) : UpgradeResult :=
  match env.fetchOutcome with
  | .axiosParsable status errData =>
    if env.abortedPost then .noUpgrade
    else .upgraded (.rejected (.errorData (jsOrStatus status) errData))
  | .axiosUnparsable body =>
    if env.abortedPost then .noUpgrade
    else .upgraded (.rejected (.invalidData none body 500 q.roomId))
  | .otherThrow =>
    catchHandler q (.genericError "User cannot access this world") env.abortedPost
  | .success d =>
    let jabberId :=
      if strFalsy d.jabberId then
        env.jidCreate userIdentifier env.ejabberdDomain env.uuidJidResource
      else
        (d.jabberId.getD "") ++ "/" ++ env.uuidSuffix
    let jabberPassword :=
      if strFalsy d.jabberId then
        if optTruthy env.ejabberdJwtSecret then
          some (env.jwtSign jabberId (env.ejabberdJwtSecret.getD ""))
        else
          some "no_password_set"
      else
        d.jabberPassword
    if env.abortedPost then .noUpgrade
    else if characterTextureIds.length ≠ d.characterTextures.length then
      .upgraded (.rejected (.invalidTexture .character))
    else if optTruthy q.companionTextureId && d.companionTexture.isNone then
      .upgraded (.rejected (.invalidTexture .companion))
    else
      .upgraded (.accepted (mkSeed env q d userIdentifier isLogged jabberId jabberPassword))

/-- The `/room` upgrade handler (source lines 263–636), translated
branch by branch: version check (source lines 321–350), token
verification and the `DISABLE_ANONYMOUS` gate (source lines 357–361),
then the member-data lookup stage. The abort flag is read as
`abortedPre` at check points reached before the awaited member-data
lookup (including the catch of errors thrown before it) and as
`abortedPost` at check points reached after it. -/
def ioUpgradeFlow (env : Env) (q : Query) : UpgradeResult :=
  if q.version ≠ env.apiVersionHash then
    if env.abortedPre then .noUpgrade
    else .upgraded (.rejected (.errorData 419 newVersionError))
  else
    match tokenStep env q with
    | .error t => catchHandler q t env.abortedPre
    | .ok tokenData =>
      if env.disableAnonymous && tokenData.isNone then
        catchHandler q (.genericError "Expecting token") env.abortedPre
      else
        fetchStage env q (normalizeTextureIds q.characterTextureIds)
          ((tokenData.map TokenData.identifier).getD "")
          (optTruthy (tokenData.bind TokenData.accessToken))

/-! ## The room open handler -/

/-- The pre-close notification emitted by the open handler for a
rejected connection. -/
inductive EmittedMessage where
  | tokenExpired
  | errorScreen (e : ErrorApiData)
  | invalidCharacterTexture
  | invalidCompanionTexture
  | connectionError (message : String)
  | noMessage
  deriving DecidableEq, Repr

/-- Observable effects of the `/room` open handler. -/
structure OpenResult where
  deletedRoomIfEmpty : Option String
  emitted : EmittedMessage
  closeCode : Option Nat
  closeMessage : String
  sessionCreated : Bool
  deriving DecidableEq, Repr

/-- The `/room` open handler (source lines 639–667): a rejected
connection first triggers `deleteRoomIfEmptyFromId` when a (truthy)
`roomId` field is present on the rejection, then emits the
reason-specific error notification, then ends the socket with close
code 1000 and message "Error message sent"; `initClient` and
`handleJoinRoom` are reached only on the non-rejected branch. -/
def openHandler (r : UpgradeResponse) : OpenResult :=
  match r with
  | .rejected d =>
    let deletedRoom :=
      match d with
      | .invalidData _ _ _ roomId => if roomId.isEmpty then none else some roomId
      | _ => none
    let emitted :=
      match d with
      | .invalidData (some .tokenInvalid) _ _ _ => .tokenExpired
      | .errorData _ e => .errorScreen e
      | .invalidTexture .character => .invalidCharacterTexture
      | .invalidTexture .companion => .invalidCompanionTexture
      | .invalidData _ message _ _ => .connectionError message
    { deletedRoomIfEmpty := deletedRoom
      emitted := emitted
      closeCode := some 1000
      closeMessage := "Error message sent"
      sessionCreated := false }
  | .accepted _ =>
    { deletedRoomIfEmpty := none
      emitted := .noMessage
      closeCode := none
      closeMessage := ""
      sessionCreated := true }

/-! ## Concrete baseline instances (used by witnesses and counterexamples) -/

/-- A member-data response with one resolved character texture, no
companion texture and no admin-supplied jabber identity. -/
def baseMember : MemberData :=
  { email := "user1@example.com"
    userUuid := "uuid-1"
    tags := ["member"]
    visitCardUrl := none
    characterTextures := [{ id := "woka1", url := "http://textures/woka1.png" }]
    companionTexture := none
    messages := []
    anonymous := false
    userRoomToken := none
    jabberId := none
    jabberPassword := none
    mucRooms := some []
    activatedInviteUser := some true
    canEdit := some false
    applications := none }

/-- A well-formed upgrade query matching `baseEnv`. -/
def baseQuery : Query :=
  { roomId := "room1"
    token := some "tok-1"
    name := "alice"
    characterTextureIds := .list ["woka1"]
    x := 1
    y := 2
    top := 0
    bottom := 100
    left := 0
    right := 200
    companionTextureId := none
    availabilityStatus := 1
    lastCommandId := none
    version := "hash-v2"
    ipAddress := "203.0.113.7" }

/-- A baseline environment: matching version hash, anonymous access
allowed, a configured signing secret, a valid token and a successful
member-data lookup. -/
def baseEnv : Env :=
  { apiVersionHash := "hash-v2"
    disableAnonymous := false
    ejabberdJwtSecret := some "xmpp-secret"
    ejabberdDomain := "ejabberd"
    uuidJidResource := "res-42"
    uuidSuffix := "suf-42"
    jidCreate := fun l d r => l ++ "@" ++ d ++ "/" ++ r
    jwtSign := fun jid secret => "signed(" ++ jid ++ "," ++ secret ++ ")"
    getColorByString := fun _ => "#573b11"
    tokenVerify := .valid { identifier := "user1", accessToken := some "acc-1" }
    fetchOutcome := .success baseMember
    abortedPre := false
    abortedPost := false }

/-! ## Helper lemmas -/

/-- Under a matching version, a non-throwing token step and a passing
anonymous-access gate, the upgrade handler reaches the member-data
lookup stage. -/
theorem ioUpgradeFlow_eq_fetchStage (env : Env) (q : Query) (td : Option TokenData)
    (hver : q.version = env.apiVersionHash)
    (htok : tokenStep env q = .ok td)
    (hanon : ¬(env.disableAnonymous = true ∧ td = none)) :
    ioUpgradeFlow env q =
      fetchStage env q (normalizeTextureIds q.characterTextureIds)
        ((td.map TokenData.identifier).getD "")
        (optTruthy (td.bind TokenData.accessToken)) := by
  have hdis : (env.disableAnonymous && td.isNone) = false := by
    cases hda : env.disableAnonymous with
    | false => simp
    | true =>
      cases htd : td with
      | none => exact absurd ⟨hda, htd⟩ hanon
      | some d => simp
  unfold ioUpgradeFlow
  rw [if_neg (by simp [hver]), htok]
  simp only [hdis, Bool.false_eq_true, if_false]

/-! ## Claims -/

/-- C1: for a verified admin `listen` request with allow-list `A` and
requested rooms `L`: if some requested room is not authorized, an error
notification is sent, the connection is closed with code 1008 ("Access
refused") and `handleAdminRoom` runs for no room at all; if every
requested room is authorized, `handleAdminRoom` runs for every room of
`L`. -/
theorem admin_listen_all_or_nothing (A L : List String) :
    ((∃ r ∈ L, r ∉ A) →
      adminListenHandler A L =
        { sentErrorMessage := true
          closeCode := some 1008
          closeMessage := "Access refused"
          handledRooms := [] }) ∧
    ((∀ r ∈ L, r ∈ A) →
      adminListenHandler A L =
        { sentErrorMessage := false
          closeCode := none
          closeMessage := ""
          handledRooms := L }) := by
  constructor
  · rintro ⟨r, hrL, hrA⟩
    have hmem : r ∈ L.filter (fun roomId => !(A.contains roomId)) := by
      rw [List.mem_filter]
      exact ⟨hrL, by simp [hrA]⟩
    have hpos : 0 < (L.filter (fun roomId => !(A.contains roomId))).length :=
      List.length_pos.mpr (List.ne_nil_of_mem hmem)
    unfold adminListenHandler
    rw [if_pos hpos]
  · intro hall
    have hnil : L.filter (fun roomId => !(A.contains roomId)) = [] := by
      rw [List.filter_eq_nil_iff]
      intro a ha
      simp [hall a ha]
    unfold adminListenHandler
    rw [hnil]
    simp

/-- Witness for C1 at concrete inputs: allow-list `["a", "b"]` with one
unauthorized request (`["a", "c"]`) and one fully authorized request
(`["a", "b"]`). -/
theorem admin_listen_all_or_nothing_witness :
    (adminListenHandler ["a", "b"] ["a", "c"] =
      { sentErrorMessage := true
        closeCode := some 1008
        closeMessage := "Access refused"
        handledRooms := [] }) ∧
    (adminListenHandler ["a", "b"] ["a", "b"] =
      { sentErrorMessage := false
        closeCode := none
        closeMessage := ""
        handledRooms := ["a", "b"] }) :=
  ⟨(admin_listen_all_or_nothing ["a", "b"] ["a", "c"]).1 ⟨"c", by decide, by decide⟩,
   (admin_listen_all_or_nothing ["a", "b"] ["a", "b"]).2 (by decide)⟩

/-- C3 counterexample: with `leaveRoom` throwing (and both timers set),
the close handler reports the error but `leaveSpaces` is never invoked,
because the single `try` block wraps both cleanup calls; so "a failure
inside leaveRoom does not prevent leaveSpaces from running" is false. -/
theorem close_leaveRoom_failure_skips_leaveSpaces :
    (closeHandler
        { leaveRoomThrows := true
          leaveSpacesThrows := false
          hasPingInterval := true
          hasPongTimeout := true }).errorReported = true ∧
    (closeHandler
        { leaveRoomThrows := true
          leaveSpacesThrows := false
          hasPingInterval := true
          hasPongTimeout := true }).leaveSpacesCalled = false := by
  decide

/-- C3 (amended): on close, cleanup errors are caught (nothing escapes
the handler) and reported, and both liveness timers are cancelled
whenever they are set; however a throw from `leaveRoom` skips
`leaveSpaces` (the `try` block wraps both calls), so `leaveSpaces` runs
exactly when `leaveRoom` does not throw. -/
theorem close_cleanup_caught_timers_cancelled (env : CloseEnv) :
    (closeHandler env).disconnectingSet = true ∧
    (closeHandler env).threwOut = false ∧
    (closeHandler env).leaveRoomCalled = true ∧
    (closeHandler env).errorReported = (env.leaveRoomThrows || env.leaveSpacesThrows) ∧
    (closeHandler env).leaveSpacesCalled = !env.leaveRoomThrows ∧
    (closeHandler env).pingIntervalCleared = env.hasPingInterval ∧
    (closeHandler env).pongTimeoutCleared = env.hasPongTimeout := by
  obtain ⟨lr, ls, pi, po⟩ := env
  cases lr <;> cases ls <;> simp [closeHandler]

/-- C5: every rejected upgrade is closed immediately when the socket
opens: the open handler emits the reason-specific error notification,
then ends the connection with close code 1000 and message "Error
message sent" (the close code is this same protocol-level code for
every rejection reason), and no session is created. -/
theorem rejected_open_closes_no_session (d : UpgradeFailedData) :
    (openHandler (.rejected d)).closeCode = some 1000 ∧
    (openHandler (.rejected d)).closeMessage = "Error message sent" ∧
    (openHandler (.rejected d)).sessionCreated = false ∧
    (openHandler (.rejected d)).emitted =
      (match d with
       | .invalidData (some .tokenInvalid) _ _ _ => .tokenExpired
       | .errorData _ e => .errorScreen e
       | .invalidTexture .character => .invalidCharacterTexture
       | .invalidTexture .companion => .invalidCompanionTexture
       | .invalidData _ message _ _ => .connectionError message) := by
  refine ⟨rfl, rfl, rfl, ?_⟩
  cases d with
  | invalidData r m s rid =>
    cases r with
    | none => rfl
    | some ir => cases ir <;> rfl
  | errorData s e => rfl
  | invalidTexture et => cases et <;> rfl

/-- C2: if the abort flag is true when control resumes after the
awaited member-data lookup (the handler having reached the lookup:
version matched, token step returned normally, anonymous gate passed),
then `res.upgrade` is never called on any path — neither the accepting
commit of the session seed nor any rejection path. -/
theorem aborted_after_lookup_never_upgrades (env : Env) (q : Query) (td : Option TokenData)
    (hver : q.version = env.apiVersionHash)
    (htok : tokenStep env q = .ok td)
    (hanon : ¬(env.disableAnonymous = true ∧ td = none))
    (hab : env.abortedPost = true) :
    ioUpgradeFlow env q = .noUpgrade := by
  rw [ioUpgradeFlow_eq_fetchStage env q td hver htok hanon]
  unfold fetchStage
  cases hfo : env.fetchOutcome <;> simp [catchHandler, hab]

/-- An environment in which the client aborted while the member-data
lookup was in flight. -/
def envAbortedPost : Env := { baseEnv with abortedPost := true }

/-- Witness for C2: with the baseline request and the abort flag set
after the lookup, no upgrade is committed. -/
theorem aborted_after_lookup_never_upgrades_witness :
    ioUpgradeFlow envAbortedPost baseQuery = .noUpgrade :=
  aborted_after_lookup_never_upgrades envAbortedPost baseQuery
    (some { identifier := "user1", accessToken := some "acc-1" })
    rfl rfl (by decide) rfl

/-- C4: an upgrade whose version differs from `apiVersionHash` (with
the handshake not aborted) is rejected with reason "error", status 419
and the retryable refresh payload, and the open handler then closes
the connection without reaching `initClient`/`handleJoinRoom`. -/
theorem version_mismatch_rejected_419 (env : Env) (q : Query)
    (hver : q.version ≠ env.apiVersionHash)
    (hab : env.abortedPre = false) :
    ioUpgradeFlow env q = .upgraded (.rejected (.errorData 419 newVersionError)) ∧
    newVersionError.type = "retry" ∧
    newVersionError.canRetryManual = true ∧
    (openHandler (.rejected (.errorData 419 newVersionError))).sessionCreated = false ∧
    (openHandler (.rejected (.errorData 419 newVersionError))).closeCode = some 1000 := by
  refine ⟨?_, rfl, rfl, rfl, rfl⟩
  unfold ioUpgradeFlow
  rw [if_pos hver, if_neg (by simp [hab])]

/-- A query sent with a stale version string. -/
def qOldVersion : Query := { baseQuery with version := "hash-v1" }

/-- Witness for C4 at the concrete stale-version query. -/
theorem version_mismatch_rejected_419_witness :
    ioUpgradeFlow baseEnv qOldVersion = .upgraded (.rejected (.errorData 419 newVersionError)) ∧
    (openHandler (.rejected (.errorData 419 newVersionError))).sessionCreated = false :=
  ⟨(version_mismatch_rejected_419 baseEnv qOldVersion (by decide) rfl).1,
   (version_mismatch_rejected_419 baseEnv qOldVersion (by decide) rfl).2.2.2.1⟩

/-- C6: when the member-data lookup throws a transport (Axios) error
whose response body parses as `ErrorApiData`, the upgrade is rejected
with reason "error", the provider's HTTP status (500 when absent) and
the provider payload; when the body is unparsable, it is rejected with
reason null and status 500. -/
theorem lookup_failure_error_mapping (env : Env) (q : Query) (td : Option TokenData)
    (hver : q.version = env.apiVersionHash)
    (htok : tokenStep env q = .ok td)
    (hanon : ¬(env.disableAnonymous = true ∧ td = none))
    (hab : env.abortedPost = false) :
    (∀ status errData, env.fetchOutcome = .axiosParsable status errData →
      ioUpgradeFlow env q = .upgraded (.rejected (.errorData (jsOrStatus status) errData))) ∧
    (∀ body, env.fetchOutcome = .axiosUnparsable body →
      ioUpgradeFlow env q = .upgraded (.rejected (.invalidData none body 500 q.roomId))) := by
  rw [ioUpgradeFlow_eq_fetchStage env q td hver htok hanon]
  constructor
  · intro status errData hf
    unfold fetchStage
    rw [hf]
    simp [hab]
  · intro body hf
    unfold fetchStage
    rw [hf]
    simp [hab]

/-- A structured provider error payload. -/
def providerError : ErrorApiData :=
  { type := "error"
    title := "Access denied"
    subtitle := "World full"
    image := ""
    code := "WORLD_FULL"
    details := "This world has reached its limit"
    canRetryManual := false
    buttonTitle := ""
    timeToRetry := 0 }

/-- An environment in which the member-data lookup throws an Axios
error with status 403 and a parsable `ErrorApiData` body. -/
def envAxiosParsable : Env := { baseEnv with fetchOutcome := .axiosParsable (some 403) providerError }

/-- Witness for C6: the concrete provider failure is surfaced with the
provider status 403 and payload. -/
theorem lookup_failure_error_mapping_witness :
    ioUpgradeFlow envAxiosParsable baseQuery =
      .upgraded (.rejected (.errorData 403 providerError)) := by
  have h := (lookup_failure_error_mapping envAxiosParsable baseQuery
    (some { identifier := "user1", accessToken := some "acc-1" })
    rfl rfl (by decide) rfl).1 (some 403) providerError rfl
  simpa [jsOrStatus] using h

/-- Projection testing whether an upgrade result is a rejection
carrying the authentication reason tag (`tokenInvalid`). -/
def hasAuthReasonTag : UpgradeResult → Bool
  | .upgraded (.rejected (.invalidData (some .tokenInvalid) _ _ _)) => true
  | _ => false

/-- An environment with anonymous connections administratively
disabled. -/
def envAnonDisabled : Env := { baseEnv with disableAnonymous := true }

/-- A query carrying no bearer token. -/
def qNoToken : Query := { baseQuery with token := none }

/-- C7 counterexample: with `DISABLE_ANONYMOUS` set and no bearer
token, the upgrade is rejected with status 401 and message
"Expecting token", but the rejection's reason field is null — the
thrown "Expecting token" is a plain `Error`, not a `JsonWebTokenError`,
so the catch maps it to reason null, not to an authentication reason
tag. -/
theorem no_token_rejection_reason_is_null :
    ioUpgradeFlow envAnonDisabled qNoToken =
      .upgraded (.rejected (.invalidData none "Expecting token" 401 "room1")) ∧
    hasAuthReasonTag (ioUpgradeFlow envAnonDisabled qNoToken) = false :=
  ⟨rfl, rfl⟩

/-- C7 (amended): for every upgrade with no (truthy) bearer token while
`DISABLE_ANONYMOUS` is set (version matching, handshake not aborted),
the upgrade is rejected with reason null, message "Expecting token" and
status 401, and the open handler closes the connection without
creating a session. -/
theorem no_token_anonymous_disabled_401 (env : Env) (q : Query)
    (hver : q.version = env.apiVersionHash)
    (htok : optTruthy q.token = false)
    (hdis : env.disableAnonymous = true)
    (hab : env.abortedPre = false) :
    ioUpgradeFlow env q =
      .upgraded (.rejected (.invalidData none "Expecting token" 401 q.roomId)) ∧
    (openHandler
        (.rejected (.invalidData none "Expecting token" 401 q.roomId))).sessionCreated
      = false := by
  constructor
  · have hts : tokenStep env q = .ok none := by
      unfold tokenStep
      rw [htok]
      simp
    unfold ioUpgradeFlow
    rw [if_neg (by simp [hver]), hts]
    simp [hdis, catchHandler, hab]
  · rfl

/-- Witness for C7's amended claim at the concrete inputs of the
counterexample. -/
theorem no_token_anonymous_disabled_401_witness :
    ioUpgradeFlow envAnonDisabled qNoToken =
      .upgraded (.rejected (.invalidData none "Expecting token" 401 "room1")) :=
  (no_token_anonymous_disabled_401 envAnonDisabled qNoToken rfl rfl rfl rfl).1

/-- Projection testing whether an upgrade result is an
`invalidTexture` rejection. -/
def isInvalidTextureRejection : UpgradeResult → Bool
  | .upgraded (.rejected (.invalidTexture _)) => true
  | _ => false

/-- C8: for an upgrade that reaches texture validation (lookup
succeeded, handshake not aborted): a count mismatch between requested
character texture ids and resolved character textures is rejected with
`invalidTexture`/`character`; with matching counts, a requested but
unresolved companion texture is rejected with
`invalidTexture`/`companion`; otherwise no `invalidTexture` rejection
occurs. -/
theorem texture_validation (env : Env) (q : Query) (td : Option TokenData) (d : MemberData)
    (hver : q.version = env.apiVersionHash)
    (htok : tokenStep env q = .ok td)
    (hanon : ¬(env.disableAnonymous = true ∧ td = none))
    (hfetch : env.fetchOutcome = .success d)
    (hab : env.abortedPost = false) :
    ((normalizeTextureIds q.characterTextureIds).length ≠ d.characterTextures.length →
      ioUpgradeFlow env q = .upgraded (.rejected (.invalidTexture .character))) ∧
    ((normalizeTextureIds q.characterTextureIds).length = d.characterTextures.length →
      (optTruthy q.companionTextureId && d.companionTexture.isNone) = true →
      ioUpgradeFlow env q = .upgraded (.rejected (.invalidTexture .companion))) ∧
    ((normalizeTextureIds q.characterTextureIds).length = d.characterTextures.length →
      (optTruthy q.companionTextureId && d.companionTexture.isNone) = false →
      isInvalidTextureRejection (ioUpgradeFlow env q) = false) := by
  rw [ioUpgradeFlow_eq_fetchStage env q td hver htok hanon]
  unfold fetchStage
  rw [hfetch]
  refine ⟨?_, ?_, ?_⟩
  · intro hne
    simp [hab, hne]
  · intro heq hcomp
    simp [hab, heq, hcomp]
  · intro heq hcomp
    simp [hab, heq, hcomp, isInvalidTextureRejection]

/-- A query requesting two character textures while the lookup
resolves only one. -/
def qTwoTextures : Query := { baseQuery with characterTextureIds := .list ["woka1", "woka2"] }

/-- Witness for C8: a concrete character texture count mismatch is
rejected with entity type `character`. -/
theorem texture_validation_witness :
    ioUpgradeFlow baseEnv qTwoTextures = .upgraded (.rejected (.invalidTexture .character)) :=
  (texture_validation baseEnv qTwoTextures
    (some { identifier := "user1", accessToken := some "acc-1" }) baseMember
    rfl rfl (by decide) rfl rfl).1 (by decide)

/-- C9: on an accepted upgrade whose member-data lookup supplied no
jabber identity, the gateway fabricates the chat credentials: the
session seed's `jabberId` (and `userJid`) is the freshly created JID
and its `jabberPassword` is the signed credential when
`EJABBERD_JWT_SECRET` is configured, the fixed placeholder
"no_password_set" otherwise; when the lookup did supply a jabberId,
only a "/"-separated unique resource suffix is appended and the
password is taken unchanged from the lookup. -/
theorem jabber_credential_fabrication (env : Env) (q : Query) (td : Option TokenData)
    (d : MemberData)
    (hver : q.version = env.apiVersionHash)
    (htok : tokenStep env q = .ok td)
    (hanon : ¬(env.disableAnonymous = true ∧ td = none))
    (hfetch : env.fetchOutcome = .success d)
    (hab : env.abortedPost = false)
    (hlen : (normalizeTextureIds q.characterTextureIds).length = d.characterTextures.length)
    (hcomp : (optTruthy q.companionTextureId && d.companionTexture.isNone) = false) :
    (strFalsy d.jabberId = true →
      ∃ seed, ioUpgradeFlow env q = .upgraded (.accepted seed) ∧
        seed.jabberId =
          env.jidCreate ((td.map TokenData.identifier).getD "") env.ejabberdDomain
            env.uuidJidResource ∧
        seed.userJid = seed.jabberId ∧
        (optTruthy env.ejabberdJwtSecret = true →
          seed.jabberPassword =
            some (env.jwtSign seed.jabberId (env.ejabberdJwtSecret.getD ""))) ∧
        (optTruthy env.ejabberdJwtSecret = false →
          seed.jabberPassword = some "no_password_set")) ∧
    (strFalsy d.jabberId = false →
      ∃ seed, ioUpgradeFlow env q = .upgraded (.accepted seed) ∧
        seed.jabberId = (d.jabberId.getD "") ++ "/" ++ env.uuidSuffix ∧
        seed.userJid = seed.jabberId ∧
        seed.jabberPassword = d.jabberPassword) := by
  rw [ioUpgradeFlow_eq_fetchStage env q td hver htok hanon]
  unfold fetchStage
  rw [hfetch]
  constructor
  · intro hj
    simp only [hj, hab, hlen, hcomp, if_true, if_false, Bool.false_eq_true, ne_eq,
      not_true_eq_false]
    refine ⟨_, rfl, ?_, ?_, ?_, ?_⟩
    · simp [mkSeed]
    · simp [mkSeed]
    · intro hsec
      simp [mkSeed, hsec]
    · intro hsec
      simp [mkSeed, hsec]
  · intro hj
    simp only [hj, hab, hlen, hcomp, if_true, if_false, Bool.false_eq_true, ne_eq,
      not_true_eq_false]
    refine ⟨_, rfl, ?_, ?_, ?_⟩
    · simp [mkSeed]
    · simp [mkSeed]
    · simp [mkSeed]

/-- Witness for C9: with the baseline environment (no admin-supplied
jabberId, signing secret configured) the committed seed carries the
fabricated JID and the signed password. -/
theorem jabber_credential_fabrication_witness :
    ∃ seed, ioUpgradeFlow baseEnv baseQuery = .upgraded (.accepted seed) ∧
      seed.jabberId = "user1@ejabberd/res-42" ∧
      seed.jabberPassword = some "signed(user1@ejabberd/res-42,xmpp-secret)" := by
  obtain ⟨seed, h1, h2, h3, h4, h5⟩ :=
    (jabber_credential_fabrication baseEnv baseQuery
      (some { identifier := "user1", accessToken := some "acc-1" }) baseMember
      rfl rfl (by decide) rfl rfl (by decide) (by decide)).1 rfl
  refine ⟨seed, h1, h2.trans (by decide), (h4 rfl).trans ?_⟩
  rw [h2]
  decide

/-- C10: a `characterTextureIds` query value that is a single string is
accepted and processed identically to the one-element array containing
that string: the normalization yields the same list and the whole
upgrade computes the same result. -/
theorem characterTextureIds_string_singleton (env : Env) (q : Query) (s : String) :
    normalizeTextureIds (.str s) = normalizeTextureIds (.list [s]) ∧
    ioUpgradeFlow env { q with characterTextureIds := .str s } =
      ioUpgradeFlow env { q with characterTextureIds := .list [s] } :=
  ⟨rfl, rfl⟩
